import Mathlib

/-!
Verification of the cross-sectional equity momentum/reversal backtesting engine
(`src/backtester/engine.py`, `src/factor_lib/momentum.py`).

The embedding below translates the engine into pure Lean functions:
prices and balances are modelled as exact rationals (`Rat`), a pandas row
becomes a `Row` (a close price plus an optional signal, `none` standing for
NaN), the mutable `Backtester` object state becomes the explicit record
`BState`, and `iterrows` loops become structural recursion over the row list.
The DataFrame column structure relevant to `generate_signals` is modelled by
`Frame`: the close column plus the family of moving-average columns, each
identified by its integer window suffix (the `MA_<n>` naming convention).
Fallible operations (pandas `KeyError` on a missing column) are modelled with
`Except`.
-/

namespace Backtest

/-- One row of the time-ordered input table: a close price and the value of
the `Signal` column, with `none` playing the role of NaN/missing. -/
structure Row where
  close : Rat
  signal : Option Rat
deriving DecidableEq

/-- The mutable state of a `Backtester` object: `self.balance`,
`self.position` and the trade ledger `self.trades` (entries are
(row index, action string, price), mirroring `(index, 'BUY'/'SELL', price)`). -/
structure BState where
  balance : Rat
  position : Int
  trades : List (Nat × String × Rat)
deriving DecidableEq

/-- Python `int(x)` on a float/rational: truncation toward zero. -/
def int_of (q : Rat) : Int :=
  if 0 ≤ q then q.floor else -((-q).floor)

/-- One iteration of the `for index, row in self.data.iterrows()` loop body of
`Backtester.execute_trades` (engine.py lines 54-93): NaN signals are skipped,
the signal is coerced with `int`, and the three branches (buy when
`signal == 1 and position <= 0`, sell when `signal == -1 and position >= 0`,
close when `signal == 0 and position != 0`) update balance, position and
ledger exactly as the source does — including the literal
`balance += price; balance -= price` pair in the sell branch. -/
def tradeStep (st : BState) (idx : Nat) (r : Row) : BState :=
  match r.signal with
  | none => st
  | some q =>
    let s := int_of q
    let p := r.close
    if s = 1 ∧ st.position ≤ 0 then
      { balance := st.balance - p, position := 1,
        trades := st.trades ++ [(idx, "BUY", p)] }
    else if s = -1 ∧ 0 ≤ st.position then
      if st.position = 1 then
        { balance := st.balance + p + p - p, position := -1,
          trades := st.trades ++ [(idx, "SELL", p)] }
      else
        { balance := st.balance + p - p, position := -1, trades := st.trades }
    else if s = 0 ∧ st.position ≠ 0 then
      if st.position = 1 then
        { balance := st.balance + p, position := 0,
          trades := st.trades ++ [(idx, "SELL", p)] }
      else if st.position = -1 then
        { balance := st.balance - p, position := 0,
          trades := st.trades ++ [(idx, "BUY", p)] }
      else
        { st with position := 0 }
    else st

/-- The `iterrows` loop of `execute_trades`, carrying the enumeration index. -/
def runTrades : List Row → Nat → BState → BState
  | [], _, st => st
  | r :: rest, i, st => runTrades rest (i + 1) (tradeStep st i r)

/-- `Backtester.execute_trades` over a row list (indices start at 0). -/
def execute_trades (rows : List Row) (st : BState) : BState :=
  runTrades rows 0 st

/-- `self.data.loc[date:, 'Portfolio Value'] = bal`: overwrite every curve
entry at index ≥ `d`. -/
def setFromAux (i d : Nat) (b : Rat) : List Rat → List Rat
  | [] => []
  | x :: xs => (if d ≤ i then b else x) :: setFromAux (i + 1) d b xs

def setFrom (d : Nat) (b : Rat) (c : List Rat) : List Rat :=
  setFromAux 0 d b c

/-- One iteration of the ledger loop in `Backtester.calculate_performance`:
re-applies the trade's cash delta to the running balance and forward-fills the
portfolio-value curve from the trade's index. -/
def perfStep (acc : Rat × List Rat) (t : Nat × String × Rat) : Rat × List Rat :=
  let bal := if t.2.1 = "BUY" then acc.1 - t.2.2
             else if t.2.1 = "SELL" then acc.1 + t.2.2 else acc.1
  (bal, setFrom t.1 bal acc.2)

/-- Output of `Backtester.calculate_performance`: the post-call object state
(the method writes back to `self.balance`), the returned total return and the
returned `Portfolio Value` series. -/
structure PerfOut where
  st : BState
  total_return : Rat
  curve : List Rat
deriving DecidableEq

/-- `Backtester.calculate_performance` (engine.py lines 95-109): the curve is
initialised everywhere to `initial_balance`, then the loop folds `perfStep`
over the ledger starting from the CURRENT `self.balance`; finally
`total_return = (self.balance - initial) / initial`. `n` is the number of
rows of `self.data`. -/
def calculate_performance (n : Nat) (initial : Rat) (st : BState) : PerfOut :=
  let fin := st.trades.foldl perfStep (st.balance, List.replicate n initial)
  { st := { st with balance := fin.1 },
    total_return := (fin.1 - initial) / initial,
    curve := fin.2 }

/-- The DataFrame as seen by `Backtester.generate_signals`: the close column
and the moving-average columns, each `MA_<n>` column given by its window
suffix `n` and its per-row values (`none` = NaN from the rolling warm-up). -/
structure Frame where
  close : List Rat
  maCols : List (Nat × List (Option Rat))
deriving DecidableEq

/-- Stable insertion of one MA column into a list sorted by window suffix. -/
def insertMA (x : Nat × List (Option Rat)) :
    List (Nat × List (Option Rat)) → List (Nat × List (Option Rat))
  | [] => [x]
  | y :: ys => if x.1 ≤ y.1 then x :: y :: ys else y :: insertMA x ys

/-- `ma_columns.sort(key=lambda x: int(x.split('_')[1]))`: stable sort of the
MA columns by window suffix. -/
def sortMA : List (Nat × List (Option Rat)) → List (Nat × List (Option Rat))
  | [] => []
  | x :: xs => insertMA x (sortMA xs)

/-- Per-row crossover rule of `generate_signals` (engine.py lines 47-48): the
pandas masks `short > long` / `short < long` are False whenever either value
is NaN, so those rows keep the initialised signal 0. -/
def crossSignalRow (s l : Option Rat) : Int :=
  match s, l with
  | some a, some b => if a > b then 1 else if a < b then -1 else 0
  | _, _ => 0

/-- `Backtester.generate_signals` (engine.py lines 30-48): with at least two
`MA_` columns the two shortest windows are used; with fewer, the code falls
back to the literal names `MA_20`/`MA_50`, and since both cannot be present
(that would already be two MA columns) the column lookup raises `KeyError`. -/
def generate_signals (f : Frame) : Except String (List Int) :=
  match sortMA f.maCols with
  | s :: l :: _ => Except.ok (List.zipWith crossSignalRow s.2 l.2)
  | _ => Except.error "KeyError: MA_20"

/-- Attach a generated integer signal column to the close column, as the
assignment `self.data['Signal'] = ...` does. -/
def mkRows (f : Frame) (sigs : List Int) : List Row :=
  List.zipWith (fun c s => { close := c, signal := some ((s : Int) : Rat) })
    f.close sigs

/-- `Backtester.run_backtest` / the per-trial body of the Monte Carlo loop:
fresh state (`__init__`), `generate_signals`, `execute_trades`,
`calculate_performance`; returns `(total_return, portfolio value curve)`. -/
def run_backtest (f : Frame) (initial : Rat) : Except String (Rat × List Rat) :=
  match generate_signals f with
  | Except.error e => Except.error e
  | Except.ok sigs =>
    let st := execute_trades (mkRows f sigs) { balance := initial, position := 0, trades := [] }
    let out := calculate_performance f.close.length initial st
    Except.ok (out.total_return, out.curve)

/-- Reorder a column by a row permutation (`df.sample(frac=1)` outcome,
expressed as the list of chosen source indices). -/
def applyPerm (p : List Nat) (xs : List α) : List α :=
  p.filterMap (fun i => xs.get? i)

/-- `self.data.sample(frac=1).reset_index(drop=True)`: every column is
reordered by the same row permutation; the column structure is unchanged. -/
def permFrame (f : Frame) (p : List Nat) : Frame :=
  { close := applyPerm p f.close,
    maCols := f.maCols.map (fun c => (c.1, applyPerm p c.2)) }

/-- `Backtester.monte_carlo_backtest` (engine.py lines 111-129), with the
random shuffles supplied as an explicit list of row permutations (one per
trial). Each trial shuffles the data carried over from the previous trial,
re-runs `__init__` (which resets balance, position and ledger) and the full
pipeline, and collects the trial's total return; an exception in any trial
propagates. -/
def monte_carlo_backtest (f : Frame) (initial : Rat) :
    List (List Nat) → Except String (List Rat)
  | [] => Except.ok []
  | p :: ps =>
    let f2 := permFrame f p
    match run_backtest f2 initial, monte_carlo_backtest f2 initial ps with
    | Except.ok r, Except.ok rs => Except.ok (r.1 :: rs)
    | Except.error e, _ => Except.error e
    | _, Except.error e => Except.error e

/-- The frame each Monte Carlo trial actually runs on (trial `i+1` shuffles
trial `i`'s frame). -/
def trialFrames (f : Frame) : List (List Nat) → List Frame
  | [] => []
  | p :: ps => permFrame f p :: trialFrames (permFrame f p) ps

/-- Total return of a successful run (Monte Carlo only collects successes). -/
def retOf (e : Except String (Rat × List Rat)) : Rat :=
  match e with
  | Except.ok r => r.1
  | Except.error _ => 0

/-- Stable insertion into a sorted list of rationals. -/
def insertRat (x : Rat) : List Rat → List Rat
  | [] => [x]
  | y :: ys => if x ≤ y then x :: y :: ys else y :: insertRat x ys

def sortRat : List Rat → List Rat
  | [] => []
  | x :: xs => insertRat x (sortRat xs)

/-- `pandas.Series.median()` on the non-NaN values: `none` on an empty list
(pandas returns NaN), the middle order statistic for odd length, the mean of
the two middle order statistics for even length. -/
def pandasMedian (xs : List Rat) : Option Rat :=
  let s := sortRat xs
  let n := s.length
  if n = 0 then none
  else if n % 2 = 1 then s.get? (n / 2)
  else
    match s.get? (n / 2 - 1), s.get? (n / 2) with
    | some a, some b => some ((a + b) / 2)
    | _, _ => none

/-- `generate_momentum_signal` (momentum.py lines 39-59) applied to the rank
column (`none` = NaN rank). With an explicit threshold: `rank <= t` gives 1
and `rank > t` gives -1 (NaN ranks match neither mask and keep the
initialised 0). Without a threshold the median of the non-NaN ranks is used,
strict comparison on both sides, 0 at the median; if the median itself is NaN
(no defined rank) every signal stays 0. -/
def generate_momentum_signal (ranks : List (Option Rat)) (threshold : Option Rat) :
    List Int :=
  match threshold with
  | some t =>
    ranks.map (fun r =>
      match r with
      | none => 0
      | some v => if v ≤ t then 1 else -1)
  | none =>
    match pandasMedian (ranks.filterMap id) with
    | none => List.replicate ranks.length 0
    | some m =>
      ranks.map (fun r =>
        match r with
        | none => 0
        | some v => if v < m then 1 else if m < v then -1 else 0)

/-- `MomentumBacktester.generate_signals` (momentum.py lines 90-97):
`self.data['Signal'] = self.data['Signal'].fillna(0).astype(int)` — NaN
signals become 0 and every signal is coerced to an integer, written back into
the data. -/
def momentumSignals (rows : List Row) : List Row :=
  rows.map (fun r =>
    { close := r.close,
      signal := some (((match r.signal with
                        | none => (0 : Int)
                        | some q => int_of q) : Int) : Rat) })

/-- `MomentumBacktester(data, b)` followed by `run_backtest()`: the
constructor (momentum.py lines 80-89) already calls `generate_signals` and
`execute_trades`; `run_backtest` (engine.py lines 147-156) then calls them
again on the SAME object state before `calculate_performance`. -/
def momentum_construct_run (rows : List Row) (initial : Rat) : PerfOut :=
  let r1 := momentumSignals rows
  let st1 := execute_trades r1 { balance := initial, position := 0, trades := [] }
  let r2 := momentumSignals r1
  let st2 := execute_trades r2 st1
  calculate_performance rows.length initial st2

/-- A single pass of the pipeline from fresh state (what one
`generate_signals`; `execute_trades`; `calculate_performance` sequence on a
fresh `MomentumBacktester`-style state produces). -/
def single_run (rows : List Row) (initial : Rat) : PerfOut :=
  calculate_performance rows.length initial
    (execute_trades (momentumSignals rows) { balance := initial, position := 0, trades := [] })

end Backtest


namespace Backtest

/-! ### Helper lemmas -/

lemma int_of_one : int_of (1 : Rat) = 1 := by decide

lemma int_of_zero : int_of (0 : Rat) = 0 := by decide

lemma int_of_neg_one : int_of (-1 : Rat) = -1 := by decide

lemma int_of_two : int_of (2 : Rat) = 2 := by decide

lemma calculate_performance_trades (n : Nat) (initial : Rat) (st : BState) :
    (calculate_performance n initial st).st.trades = st.trades := rfl

lemma perfStep_buy (acc : Rat × List Rat) (i : Nat) (p : Rat) :
    perfStep acc (i, "BUY", p) = (acc.1 - p, setFrom i (acc.1 - p) acc.2) := by
  simp [perfStep]

lemma perfStep_sell (acc : Rat × List Rat) (i : Nat) (p : Rat) :
    perfStep acc (i, "SELL", p) = (acc.1 + p, setFrom i (acc.1 + p) acc.2) := by
  simp [perfStep]

/-- Position values reachable by the simulator. -/
def posIn (st : BState) : Prop :=
  st.position = -1 ∨ st.position = 0 ∨ st.position = 1

lemma tradeStep_posIn (st : BState) (i : Nat) (r : Row) (h : posIn st) :
    posIn (tradeStep st i r) := by
  unfold tradeStep
  cases hr : r.signal with
  | none => exact h
  | some q =>
    dsimp only
    split_ifs <;> simp_all [posIn]

lemma runTrades_posIn : ∀ (rows : List Row) (i : Nat) (st : BState),
    posIn st → posIn (runTrades rows i st)
  | [], _, _, h => h
  | r :: rest, i, st, h =>
    runTrades_posIn rest (i + 1) (tradeStep st i r) (tradeStep_posIn st i r h)

/-! ### Claims -/

/-- Claim C1 (code bug): on the signal sequence [+1 at close 1, 0 at close 3]
with initial balance 10, trade execution produces exactly the ledger
[BUY@1, SELL@3] and the post-execution balance 10 - 1 + 3, but
`calculate_performance` re-applies each trade's cash delta to the live
balance, so the reported total return is 2*((3-1)/10), not the claimed
(p2 - p1)/b = (3-1)/10. -/
theorem buy_sell_run_return_doubles :
    (execute_trades [⟨1, some 1⟩, ⟨3, some 0⟩] ⟨10, 0, []⟩).trades
        = [(0, "BUY", 1), (1, "SELL", 3)] ∧
    (execute_trades [⟨1, some 1⟩, ⟨3, some 0⟩] ⟨10, 0, []⟩).balance = 10 - 1 + 3 ∧
    (calculate_performance 2 10
        (execute_trades [⟨1, some 1⟩, ⟨3, some 0⟩] ⟨10, 0, []⟩)).total_return
        = 2 * ((3 - 1) / 10) ∧
    ¬ (2 * (((3 : Rat) - 1) / 10) = (3 - 1) / 10) := by
  refine ⟨?_, ?_, ?_, ?_⟩ <;>
    norm_num [execute_trades, runTrades, tradeStep, int_of_one, int_of_zero,
      calculate_performance, perfStep_buy, perfStep_sell, setFrom, setFromAux]

/-- Claim C2 counterexample: processing signal -1 while FLAT at close price 5
leaves the balance at 10 (the `+= price` is immediately cancelled by the
`-= price`), so the balance does not increase by the close price. -/
theorem short_entry_from_flat_balance_unchanged_cex :
    (tradeStep ⟨10, 0, []⟩ 0 ⟨5, some (-1)⟩).balance = 10 ∧
    (tradeStep ⟨10, 0, []⟩ 0 ⟨5, some (-1)⟩).position = -1 ∧
    (tradeStep ⟨10, 0, []⟩ 0 ⟨5, some (-1)⟩).trades = [] ∧
    ¬ ((10 : Rat) = 10 + 5) := by
  refine ⟨?_, ?_, ?_, ?_⟩ <;> norm_num [tradeStep, int_of_neg_one]

/-- Claim C2 (amended): a -1 signal while FLAT moves the position to SHORT
with NO ledger entry and NO net balance change (the sale-proceeds credit is
immediately debited back); a -1 signal while LONG records exactly one SELL,
net-increases the balance by exactly one close price, and moves the position
to SHORT. -/
theorem sell_signal_branch_semantics (st : BState) (i : Nat) (p : Rat) :
    (st.position = 0 →
      (tradeStep st i ⟨p, some (-1)⟩).balance = st.balance ∧
      (tradeStep st i ⟨p, some (-1)⟩).position = -1 ∧
      (tradeStep st i ⟨p, some (-1)⟩).trades = st.trades) ∧
    (st.position = 1 →
      (tradeStep st i ⟨p, some (-1)⟩).balance = st.balance + p ∧
      (tradeStep st i ⟨p, some (-1)⟩).position = -1 ∧
      (tradeStep st i ⟨p, some (-1)⟩).trades = st.trades ++ [(i, "SELL", p)]) := by
  constructor
  · intro h0
    refine ⟨?_, ?_, ?_⟩ <;> simp [tradeStep, int_of_neg_one, h0]
  · intro h1
    refine ⟨?_, ?_, ?_⟩ <;> simp [tradeStep, int_of_neg_one, h1]

theorem sell_signal_branch_semantics_witness :
    (tradeStep ⟨10, 0, []⟩ 0 ⟨5, some (-1)⟩).balance = 10 ∧
    (tradeStep ⟨10, 1, []⟩ 0 ⟨5, some (-1)⟩).balance = 10 + 5 :=
  ⟨((sell_signal_branch_semantics ⟨10, 0, []⟩ 0 5).1 rfl).1,
   ((sell_signal_branch_semantics ⟨10, 1, []⟩ 0 5).2 rfl).1⟩

/-- Claim C3 (code bug): with a nonempty ledger, `calculate_performance` does
NOT leave the cash balance unchanged — at the failing input (balance 5,
ledger [BUY@5]) the post-call balance is 0, not 5, because the loop
re-applies each trade's delta to `self.balance`. The zero-trade part of the
claim does hold: with an empty ledger the balance is untouched, the total
return is 0 and the curve is constant at the initial balance. -/
theorem calculate_performance_mutates_balance :
    (calculate_performance 1 10 ⟨5, 0, [(0, "BUY", 5)]⟩).st.balance = 0 ∧
    ¬ ((0 : Rat) = 5) ∧
    (calculate_performance 1 10 ⟨10, 0, []⟩).st.balance = 10 ∧
    (calculate_performance 1 10 ⟨10, 0, []⟩).total_return = 0 ∧
    (calculate_performance 1 10 ⟨10, 0, []⟩).curve = [10] := by
  refine ⟨?_, ?_, ?_, ?_, ?_⟩ <;>
    norm_num [calculate_performance, perfStep_buy, perfStep_sell, setFrom, setFromAux]

/-- Claim C5 counterexample: with an open LONG position at close price 5, the
out-of-domain signal 2 is a complete no-op, while signal 0 closes the
position with a SELL — the two outcomes differ. -/
theorem out_of_domain_differs_from_zero_cex :
    tradeStep ⟨10, 1, []⟩ 0 ⟨5, some 2⟩ = ⟨10, 1, []⟩ ∧
    (tradeStep ⟨10, 1, []⟩ 0 ⟨5, some 0⟩).position = 0 ∧
    (tradeStep ⟨10, 1, []⟩ 0 ⟨5, some 0⟩).trades = [(0, "SELL", 5)] ∧
    ¬ (tradeStep ⟨10, 1, []⟩ 0 ⟨5, some 2⟩ = tradeStep ⟨10, 1, []⟩ 0 ⟨5, some 0⟩) := by
  refine ⟨?_, ?_, ?_, ?_⟩ <;>
    norm_num [tradeStep, int_of_two, int_of_zero, BState.mk.injEq]

/-- Claim C5 (amended): a signal outside {-1, 0, 1} after integer coercion is
a complete no-op — position, balance and ledger are all unchanged — which
coincides with the effect of signal 0 exactly when the position is FLAT (for
an open position, signal 0 closes it instead). -/
theorem out_of_domain_signal_noop (st : BState) (i : Nat) (p q : Rat)
    (h1 : int_of q ≠ 1) (h2 : int_of q ≠ -1) (h0 : int_of q ≠ 0) :
    tradeStep st i ⟨p, some q⟩ = st ∧
    (st.position = 0 → tradeStep st i ⟨p, some 0⟩ = st) := by
  constructor
  · simp [tradeStep, h1, h2, h0]
  · intro hp
    simp [tradeStep, int_of_zero, hp]

theorem out_of_domain_signal_noop_witness :
    tradeStep ⟨10, 1, []⟩ 0 ⟨5, some 2⟩ = ⟨10, 1, []⟩ :=
  (out_of_domain_signal_noop ⟨10, 1, []⟩ 0 5 2 (by decide) (by decide) (by decide)).1

/-- Claim C6 (confirmed): the simulator position starts at 0 and, for every
row list (arbitrary signals, including missing and out-of-domain values) and
every prefix length, the position after executing that prefix is in
{-1, 0, 1}. -/
theorem position_stays_in_domain (rows : List Row) (b : Rat) (n : Nat) :
    (BState.mk b 0 []).position = 0 ∧
    ((execute_trades (rows.take n) ⟨b, 0, []⟩).position = -1 ∨
     (execute_trades (rows.take n) ⟨b, 0, []⟩).position = 0 ∨
     (execute_trades (rows.take n) ⟨b, 0, []⟩).position = 1) :=
  ⟨rfl, runTrades_posIn (rows.take n) 0 ⟨b, 0, []⟩ (Or.inr (Or.inl rfl))⟩

/-- Claim C7 (confirmed): with a designated short column (smaller window) and
long column (larger window), `generate_signals` emits per row +1 where
short > long, -1 where short < long and 0 otherwise, with any undefined input
yielding 0; on short = [1,2,3] against long = [3,2,1] the signals are
[-1, 0, 1]. -/
theorem crossover_signal_rule :
    (∀ (close : List Rat) (shorts longs : List (Option Rat)),
        generate_signals ⟨close, [(20, shorts), (50, longs)]⟩ =
          Except.ok (List.zipWith crossSignalRow shorts longs)) ∧
    (∀ a b : Rat, crossSignalRow (some a) (some b) =
        if a > b then 1 else if a < b then -1 else 0) ∧
    (∀ x : Option Rat, crossSignalRow none x = 0 ∧ crossSignalRow x none = 0) ∧
    generate_signals
        ⟨[0, 0, 0], [(20, [some 1, some 2, some 3]), (50, [some 3, some 2, some 1])]⟩ =
      Except.ok [-1, 0, 1] := by
  refine ⟨?_, ?_, ?_, ?_⟩
  · intro close shorts longs
    simp [generate_signals, sortMA, insertMA]
  · intro a b; rfl
  · intro x; cases x <;> exact ⟨rfl, rfl⟩
  · rfl

/-- Claim C8 (confirmed): with an explicit threshold, every defined rank ≤ t
gets +1 and every defined rank > t gets -1 (undefined ranks get 0); in median
mode, defined ranks strictly below the median get +1, strictly above get -1
and the median itself gets 0; with threshold 2 on ranks [1,2,3,4] the
signals are [+1, +1, -1, -1]. -/
theorem momentum_signal_rule :
    (∀ (ranks : List (Option Rat)) (t : Rat),
        generate_momentum_signal ranks (some t) =
          ranks.map (fun r => match r with
            | none => 0
            | some v => if v ≤ t then 1 else -1)) ∧
    (∀ (ranks : List (Option Rat)) (m : Rat),
        pandasMedian (ranks.filterMap id) = some m →
        generate_momentum_signal ranks none =
          ranks.map (fun r => match r with
            | none => 0
            | some v => if v < m then 1 else if m < v then -1 else 0)) ∧
    generate_momentum_signal [some 1, some 2, some 3, some 4] (some 2) =
      [1, 1, -1, -1] := by
  refine ⟨?_, ?_, ?_⟩
  · intro ranks t; rfl
  · intro ranks m h
    simp [generate_momentum_signal, h]
  · rfl

theorem momentum_signal_rule_witness :
    generate_momentum_signal [some 1, some 2, some 3] none = [1, 0, -1] := by
  rw [momentum_signal_rule.2.1 [some 1, some 2, some 3] 2 (by decide)]
  rfl

end Backtest

namespace Backtest

/-! ### Monte Carlo (C9) helpers -/

lemma insertMA_length (x : Nat × List (Option Rat))
    (xs : List (Nat × List (Option Rat))) :
    (insertMA x xs).length = xs.length + 1 := by
  induction xs with
  | nil => rfl
  | cons y ys ih => simp [insertMA]; split_ifs <;> simp [ih]

lemma sortMA_length (xs : List (Nat × List (Option Rat))) :
    (sortMA xs).length = xs.length := by
  induction xs with
  | nil => rfl
  | cons x xs ih => simp [sortMA, insertMA_length, ih]

lemma generate_signals_ok_of (f : Frame) (h : 2 ≤ f.maCols.length) :
    ∃ sigs, generate_signals f = Except.ok sigs := by
  have hl : 2 ≤ (sortMA f.maCols).length := by rw [sortMA_length]; exact h
  cases hs : sortMA f.maCols with
  | nil => rw [hs] at hl; simp at hl
  | cons s tail =>
    cases ht : tail with
    | nil => rw [hs, ht] at hl; simp at hl
    | cons l rest =>
      exact ⟨List.zipWith crossSignalRow s.2 l.2, by simp [generate_signals, hs, ht]⟩

lemma run_backtest_ok (f : Frame) (b : Rat) (h : 2 ≤ f.maCols.length) :
    ∃ out, run_backtest f b = Except.ok out := by
  obtain ⟨sigs, hs⟩ := generate_signals_ok_of f h
  refine ⟨((calculate_performance f.close.length b
        (execute_trades (mkRows f sigs) ⟨b, 0, []⟩)).total_return,
      (calculate_performance f.close.length b
        (execute_trades (mkRows f sigs) ⟨b, 0, []⟩)).curve), ?_⟩
  simp [run_backtest, hs]

lemma permFrame_maCols_length (f : Frame) (p : List Nat) :
    (permFrame f p).maCols.length = f.maCols.length := by
  simp [permFrame]

lemma trialFrames_length : ∀ (ps : List (List Nat)) (f : Frame),
    (trialFrames f ps).length = ps.length
  | [], _ => rfl
  | p :: ps, f => by simp [trialFrames, trialFrames_length ps]

lemma monte_carlo_eq (b : Rat) : ∀ (ps : List (List Nat)) (f : Frame),
    2 ≤ f.maCols.length →
    monte_carlo_backtest f b ps =
      Except.ok ((trialFrames f ps).map (fun g => retOf (run_backtest g b)))
  | [], _, _ => rfl
  | p :: ps, f, h => by
    have h2 : 2 ≤ (permFrame f p).maCols.length := by
      rw [permFrame_maCols_length]; exact h
    obtain ⟨out, hout⟩ := run_backtest_ok (permFrame f p) b h2
    have ih := monte_carlo_eq b ps (permFrame f p) h2
    simp [monte_carlo_backtest, trialFrames, hout, ih, retOf]

/-- Claim C9 (confirmed): whenever the frame has the two MA columns the
crossover policy needs, Monte Carlo with `n` supplied shuffles returns
`Except.ok` of exactly `n` total returns (the empty list for `n = 0`), and
each entry is exactly the total return of one full fresh-state pipeline run
(`run_backtest`, which re-initialises balance, position and ledger) on that
trial's shuffled frame — no state leaks between trials. -/
theorem monte_carlo_count_and_reset (f : Frame) (b : Rat)
    (perms : List (List Nat)) (h : 2 ≤ f.maCols.length) :
    monte_carlo_backtest f b perms =
      Except.ok ((trialFrames f perms).map (fun g => retOf (run_backtest g b))) ∧
    ((trialFrames f perms).map (fun g => retOf (run_backtest g b))).length
      = perms.length ∧
    monte_carlo_backtest f b [] = Except.ok [] :=
  ⟨monte_carlo_eq b perms f h, by simp [trialFrames_length], rfl⟩

theorem monte_carlo_count_and_reset_witness :
    monte_carlo_backtest ⟨[5], [(20, [some 2]), (50, [some 1])]⟩ 10 [[0]] =
      Except.ok ((trialFrames ⟨[5], [(20, [some 2]), (50, [some 1])]⟩ [[0]]).map
        (fun g => retOf (run_backtest g 10))) :=
  (monte_carlo_count_and_reset ⟨[5], [(20, [some 2]), (50, [some 1])]⟩ 10 [[0]]
    (by decide)).1

/-- Claim C10 counterexample: on the one-row input with signal +1 (close 5,
initial balance 10) the constructor's pass executes one BUY and leaves the
position LONG, and `run_backtest`'s second pass is then a complete no-op
(`signal == 1` requires `position <= 0`), so construct-then-run produces
exactly the same ledger, balance, total return and curve as a single
execution — refuting "for every input with at least one executed trade, the
resulting ledger and balance differ". -/
theorem construct_then_run_idempotent_cex :
    (single_run [⟨5, some 1⟩] 10).st.trades.length = 1 ∧
    momentum_construct_run [⟨5, some 1⟩] 10 = single_run [⟨5, some 1⟩] 10 := by
  constructor
  · norm_num [single_run, momentumSignals, execute_trades, runTrades, tradeStep,
      int_of_one, calculate_performance_trades]
  · norm_num [momentum_construct_run, single_run, momentumSignals, execute_trades,
      runTrades, tradeStep, int_of_one, calculate_performance, perfStep_buy,
      setFrom, setFromAux]

/-- Claim C10 (amended): constructing a `MomentumBacktester` and then calling
`run_backtest` does execute the whole signal sequence twice against the
carried-over state, and in general this changes the outcome — on
[+1 at p1, 0 at p2] the double execution books four ledger entries where a
single execution books two — but not for EVERY input with an executed trade
(a lone +1 signal yields identical ledger and balance, see the
counterexample), so the pipeline is non-idempotent in general rather than on
all trading inputs. -/
theorem construct_then_run_duplicates_trades (p1 p2 b : Rat) :
    (momentum_construct_run [⟨p1, some 1⟩, ⟨p2, some 0⟩] b).st.trades.length = 4 ∧
    (single_run [⟨p1, some 1⟩, ⟨p2, some 0⟩] b).st.trades.length = 2 ∧
    ¬ (momentum_construct_run [⟨p1, some 1⟩, ⟨p2, some 0⟩] b =
        single_run [⟨p1, some 1⟩, ⟨p2, some 0⟩] b) := by
  have h4 : (momentum_construct_run [⟨p1, some 1⟩, ⟨p2, some 0⟩] b).st.trades.length = 4 := by
    simp [momentum_construct_run, momentumSignals, execute_trades, runTrades,
      tradeStep, int_of_one, int_of_zero, calculate_performance_trades]
  have h2 : (single_run [⟨p1, some 1⟩, ⟨p2, some 0⟩] b).st.trades.length = 2 := by
    simp [single_run, momentumSignals, execute_trades, runTrades,
      tradeStep, int_of_one, int_of_zero, calculate_performance_trades]
  refine ⟨h4, h2, fun heq => ?_⟩
  rw [heq, h2] at h4
  exact absurd h4 (by decide)

end Backtest

namespace Backtest

/-- Claim C4 counterexample: on an empty input that carries no `MA_` columns
(the frame a truly empty DataFrame presents), `generate_signals` falls back
to the literal column names `MA_20`/`MA_50`, and the column lookup raises
`KeyError` instead of returning an empty signal series — "never raises on
empty input" does not hold universally. -/
theorem generate_signals_errors_on_colless_empty :
    generate_signals ⟨[], []⟩ = Except.error "KeyError: MA_20" ∧
    ¬ (generate_signals ⟨[], []⟩ = Except.ok []) := by
  constructor
  · rfl
  · intro hcontra
    rw [show generate_signals ⟨[], []⟩ = Except.error "KeyError: MA_20" from rfl] at hcontra
    exact Except.noConfusion hcontra

/-- Claim C4 (amended): on an empty input series that does carry the columns
the policy reads (two MA columns for the crossover, the rank column for the
momentum policy), signal generation returns an empty signal series without
raising, and a full run produces zero trades, total return 0 and a flat
(empty) portfolio-value curve — but an empty input lacking two MA columns
makes the crossover `generate_signals` raise `KeyError`. -/
theorem empty_input_degenerate_run (b : Rat) (t : Option Rat) :
    generate_signals ⟨[], [(20, []), (50, [])]⟩ = Except.ok [] ∧
    run_backtest ⟨[], [(20, []), (50, [])]⟩ b = Except.ok (0, []) ∧
    execute_trades [] ⟨b, 0, []⟩ = ⟨b, 0, []⟩ ∧
    (calculate_performance 0 b ⟨b, 0, []⟩).total_return = 0 ∧
    (calculate_performance 0 b ⟨b, 0, []⟩).curve = [] ∧
    generate_momentum_signal [] t = [] := by
  refine ⟨rfl, ?_, rfl, ?_, rfl, ?_⟩
  · simp [run_backtest, generate_signals, sortMA, insertMA, mkRows,
      execute_trades, runTrades, calculate_performance]
  · simp [calculate_performance]
  · cases t <;> rfl

end Backtest
